import Mathlib

/-
Verification development for the al_v1 clinical chatbot backend.

The definitions below are a shallow embedding of the Python sources:
  backend/nlp.py    — intent schema, intent detection, entity selection,
                      dialogue context memory
  backend/main.py   — EXTRA_INTENTS, the process_query orchestrator
  backend/mongo.py  — event-loop-keyed client cache, tenacity retry
                      decorator, name-regex patient lookups, capped
                      collection queries

External effects are modelled explicitly: the zero-shot classifier is an
oracle value, awaited store operations are `Except`-valued environment
fields (where `.error` stands for a raised exception reaching the caller),
and classifier scores are rationals.
-/

namespace AlV1

/-! ### backend/nlp.py — intent schema -/

/-- INTENT_SCHEMA from backend/nlp.py: intent key paired with the
natural-language description used as the classifier candidate label. -/
def INTENT_SCHEMA : List (String × String) := [
  ("appointments_today", "Get today\x27s appointments."),
  ("appointments_on_date", "Get appointments for a specific date."),
  ("patient_info", "Fetch patient record details."),
  ("staff_info", "List hospital staff information."),
  ("greeting", "User says hello or initiates conversation."),
  ("goodbye", "User ends conversation or says goodbye."),
  ("ask_doctor", "Ask a question to the doctor."),
  ("department_info", "Query hospital departments or specialties."),
  ("lab_results", "Retrieve patient lab results."),
  ("prescriptions", "Retrieve patient prescription list."),
  ("admission_info", "Get admission or discharge info for a patient."),
  ("update_patient_contact", "Update contact info for a patient."),
  ("cancel_appointment", "Cancel a scheduled appointment."),
  ("book_appointment", "Book a new appointment."),
  ("reschedule_appointment", "Reschedule an existing appointment."),
  ("get_patient_dob", "Fetch patient\x27s date of birth."),
  ("get_patient_gender", "Fetch patient\x27s gender."),
  ("get_patient_contact", "Fetch patient\x27s phone or contact info."),
  ("get_all_patients", "List all patients in system."),
  ("get_recent_admissions", "Get recent hospital admissions."),
  ("discharge_summary", "Fetch discharge summary for a patient."),
  ("doctor_schedule", "Get a doctor\x27s schedule."),
  ("nurse_on_duty", "Identify nurse on duty."),
  ("room_availability", "Check available rooms."),
  ("bed_occupancy", "Get bed occupancy report."),
  ("lab_test_schedule", "List patient\x27s upcoming lab tests."),
  ("radiology_results", "Get radiology results."),
  ("emergency_contacts", "Show patient\x27s emergency contacts."),
  ("pharmacy_inventory", "Check pharmacy stock or availability."),
  ("prescription_renewal", "Renew a prescription."),
  ("patient_allergies", "Fetch known patient allergies."),
  ("vital_signs_history", "View historical vitals."),
  ("billing_summary", "Get billing summary or invoice."),
  ("insurance_details", "Fetch insurance coverage info."),
  ("next_of_kin", "Show next of kin info."),
  ("doctor_notes", "Display doctor\x27s notes."),
  ("referral_status", "Check referral status."),
  ("follow_up_appointments", "Get follow-up appointment info."),
  ("pending_lab_tests", "List pending lab tests."),
  ("completed_lab_tests", "List completed lab tests."),
  ("active_medications", "Show active medications."),
  ("medication_side_effects", "List medication side effects."),
  ("dietary_recommendations", "Show dietary advice for patient."),
  ("discharge_instructions", "Give discharge instructions."),
  ("ICU_patients", "List patients in ICU."),
  ("ward_overview", "Show ward-level occupancy or details."),
  ("staff_shift_schedule", "Fetch shift schedules."),
  ("visitor_policy", "Show hospital visitor policy."),
  ("hospital_map", "Display hospital map."),
  ("room_cleaning_schedule", "Get cleaning schedule for rooms."),
  ("infection_reports", "Report or view infections."),
  ("covid_protocols", "Display COVID-19 protocols."),
  ("vaccine_records", "Show vaccine records."),
  ("doctor_on_call", "Identify doctor on call."),
  ("critical_alerts", "Display critical alerts."),
  ("system_status", "Check backend system health."),
  ("clinical_guidelines", "Show clinical protocols."),
  ("temperature_trends", "Track patient temperature over time."),
  ("oxygen_saturation_levels", "View oxygen saturation data.")
]

/-- The reverse mapping built in detect_intent:
label_to_intent = \x7bv: k for k, v in INTENT_SCHEMA.items()\x7d.
Descriptions are unique (see INTENT_SCHEMA_descriptions_nodup), so taking
the first pair whose description matches agrees with the Python dict. -/
def label_to_intent (lbl : String) : Option String :=
  (INTENT_SCHEMA.find? (fun p => p.2 == lbl)).map (fun p => p.1)

/-! ### backend/nlp.py — intent detection -/

/-- Result of the zero-shot classification oracle for one utterance:
either the top-ranked candidate label with its score, or a raised
exception inside the classifier call (caught by detect_intent). -/
inductive OracleResult where
  | ok (top_label : String) (score : ℚ)
  | exc
deriving DecidableEq

/-- The 0.10 literal of backend/nlp.py, as the exact rational 1/10
(written with mkRat so that concrete runs evaluate). -/
def DEFAULT_THRESHOLD : ℚ := mkRat 1 10

/-- dynamic_threshold = max(threshold, 0.10) from detect_intent. -/
def dynamic_threshold (threshold : ℚ) : ℚ := max threshold DEFAULT_THRESHOLD

/-- detect_intent from backend/nlp.py. The classifier invocation is the
oracle argument; a missing label in label_to_intent raises KeyError,
which the surrounding except clause turns into ("fallback", 0.0), and
any oracle exception does the same. -/
def detect_intent (r : OracleResult) (threshold : ℚ) : String × ℚ :=
  match r with
  | .exc => ("fallback", 0)
  | .ok top_label score =>
    match label_to_intent top_label with
    | none => ("fallback", 0)
    | some top_intent =>
      if score < dynamic_threshold threshold then ("fallback", score)
      else (top_intent, score)

/-! ### backend/nlp.py — entity selection and the NLP pipeline -/

/-- A spaCy named entity: surface text plus label. -/
structure Entity where
  text : String
  label : String
deriving DecidableEq

/-- The label priority set in detect_intent_and_entity. -/
def ENTITY_LABELS : List String :=
  ["PERSON", "ORG", "GPE", "DATE", "DEPARTMENT", "PATIENT_ID"]

/-- Selection of the first extracted entity whose label is in
ENTITY_LABELS (the for-loop with break in detect_intent_and_entity). -/
def select_entity (ents : List Entity) : Option String :=
  (ents.find? (fun e => ENTITY_LABELS.contains e.label)).map (fun e => e.text)

/-- DIALOGUE_CONTEXT from backend/nlp.py: the session conversation
memory holding the last intent and last entity. -/
structure DialogueContext where
  last_intent : Option String
  last_entity : Option String
deriving DecidableEq

/-- detect_intent_and_entity from backend/nlp.py. Inputs are the
classifier oracle for this utterance and the spaCy entity list (a spaCy
failure degrades to the empty list before this point). On a fallback
classification it returns ("unknown", None) and leaves DIALOGUE_CONTEXT
untouched; otherwise it overwrites DIALOGUE_CONTEXT with the classified
intent and selected entity before returning them. -/
def detect_intent_and_entity (oracle : OracleResult) (ents : List Entity)
    (ctx : DialogueContext) : (String × Option String) × DialogueContext :=
  let entity_text := select_entity ents
  let r := detect_intent oracle DEFAULT_THRESHOLD
  if r.1 = "fallback" then (("unknown", none), ctx)
  else ((r.1, entity_text), ⟨some r.1, entity_text⟩)

/-! ### backend/main.py — EXTRA_INTENTS and user-facing messages -/

/-- EXTRA_INTENTS from backend/main.py (the stubbed extended intents). -/
def EXTRA_INTENTS : List String := [
  "medication_interactions", "referral_status", "insurance_coverage",
  "treatment_plan_update", "immunization_status", "allergy_check",
  "vital_signs_history", "surgery_schedule", "radiology_reports",
  "billing_inquiry", "test_preparation", "post_op_followup",
  "mental_health_assessment", "nutrition_advice", "exercise_recommendation",
  "sleep_assessment", "smoking_cessation", "diabetes_management",
  "hypertension_management", "cardiology_consult", "neurology_consult",
  "oncology_update", "pediatrics_consult", "geriatrics_consult",
  "dermatology_consult", "ophthalmology_consult", "dental_consult",
  "otolaryngology_consult", "pulmonology_consult", "nephrology_consult",
  "hepatology_consult", "endocrinology_consult", "infusion_schedule",
  "infection_control", "antibiotic_review", "medication_adherence",
  "pregnancy_checkup", "postpartum_followup", "child_growth_monitoring",
  "mental_health_followup", "gynecology_consult", "urology_consult",
  "orthopedics_consult", "pulmonary_function_test", "sleep_study_results",
  "oncology_followup", "radiotherapy_schedule", "chemotherapy_status",
  "transplant_status", "clinical_trial_info", "genetics_counseling",
  "telehealth_setup", "emergency_protocol", "lab_order_status",
  "pharmacy_pickup", "physical_therapy_consult", "occupational_therapy_consult",
  "speech_therapy_consult", "home_care_arrangement", "get_patient_dob"
]

/-- The intents process_query routes to a store capability. -/
def ROUTED_INTENTS : List String :=
  ["appointments_today", "appointments", "appointments_on_date",
   "staff", "staff_info", "patient_info", "get_patient_dob"]

/-- Validation message for a missing date entity. -/
def MSG_DATE_MISSING : String :=
  "⚠️ Please mention a specific date (e.g., \x27appointments on 20th June\x27)."

/-- Validation message for an unparsable date entity. -/
def MSG_DATE_UNPARSABLE : String :=
  "⚠️ Couldn\x27t understand the date. Try formats like \x27June 21st\x27 or \x272025-06-21\x27."

/-- Validation message for a missing patient name (patient_info). -/
def MSG_PATIENT_MISSING : String :=
  "⚠️ Please provide a patient name (e.g., \x27Show me details for Rahul Sharma\x27)."

/-- Validation message for a missing patient name (get_patient_dob). -/
def MSG_DOB_MISSING : String :=
  "⚠️ Please specify a patient\x27s name to retrieve the date of birth."

/-- Stub message for the extended intents. -/
def MSG_UNDER_DEV (intent : String) : String :=
  "⚠️ The feature for \x27" ++ intent ++ "\x27 is under development."

/-- Fixed unrecognized-intent message. -/
def MSG_UNRECOGNIZED : String :=
  "🤖 Sorry, I didn’t understand that. Try asking about appointments, staff, or patient records."

/-- Generic internal-error message from the top-level except clause. -/
def MSG_INTERNAL_ERROR : String :=
  "❌ An internal error occurred while processing your request. Please try again later."

/-! ### backend/main.py — the process_query orchestrator -/

/-- Python truthiness of the optional entity string: None and the empty
string are falsy. -/
def pyTruthy (o : Option String) : Bool :=
  match o with
  | none => false
  | some s => !(s == "")

/-- Python str.lower modelled character-wise (the ASCII case folding
Char.toLower provides), used for the today/tomorrow token tests. -/
def pyLower (s : String) : String := ⟨s.data.map Char.toLower⟩

/-- A store call issued by process_query, with its argument. -/
inductive StoreCall where
  | todays
  | onDate (date_str : String)
  | staff
  | history (name : String)
  | dob (name : String)
deriving DecidableEq

/-- Environment of one process_query run: the classifier oracle outcome,
the spaCy entities, the clock, dateparser, strftime, the awaited store
capabilities and the RAG generator. An Except.error value stands for an
exception raised by that stage and escaping to process_query, where the
top-level except clause catches it. -/
structure Env (Data : Type) where
  oracle : OracleResult
  entities : List Entity
  today : Int
  parse_date : String → Option Int
  fmt : Int → String
  todays_appts : Except Unit Data
  appts_on_date : String → Except Unit Data
  all_staff : Except Unit Data
  patient_history : String → Except Unit Data
  patient_dob : String → Except Unit Data
  gen : String → Data → Except Unit String

/-- Result of one process_query run: the returned message, the store
calls that were issued, and the dialogue context after the run. -/
structure RunResult where
  msg : String
  calls : List StoreCall
  ctx : DialogueContext
deriving DecidableEq

/-- The final generate_response step of process_query; a raised
exception is caught by the top-level except clause and becomes the
generic internal-error message. -/
def rag_step {Data : Type} (env : Env Data) (q : String) (data : Data)
    (calls : List StoreCall) (ctx : DialogueContext) : RunResult :=
  match env.gen q data with
  | .ok resp => ⟨resp, calls, ctx⟩
  | .error _ => ⟨MSG_INTERNAL_ERROR, calls, ctx⟩

/-- process_query from backend/main.py: the NLP step followed by the
intent-routing elif chain, with the top-level except clause mapping any
exception raised by an awaited store call or the generator to
MSG_INTERNAL_ERROR. -/
def process_query {Data : Type} (env : Env Data) (q : String)
    (ctx : DialogueContext) : RunResult :=
  let r := detect_intent_and_entity env.oracle env.entities ctx
  let intent := r.1.1
  let entity := r.1.2
  let ctx1 := r.2
  if intent = "appointments_today" ∨ intent = "appointments" then
    match env.todays_appts with
    | .ok data => rag_step env q data [.todays] ctx1
    | .error _ => ⟨MSG_INTERNAL_ERROR, [.todays], ctx1⟩
  else if intent = "appointments_on_date" then
    if pyTruthy entity = false then ⟨MSG_DATE_MISSING, [], ctx1⟩
    else
      let e := entity.getD ""
      let parsed_date : Option Int :=
        if pyLower e = "tomorrow" then some (env.today + 1)
        else if pyLower e = "today" then some env.today
        else env.parse_date e
      match parsed_date with
      | none => ⟨MSG_DATE_UNPARSABLE, [], ctx1⟩
      | some d =>
        let date_str := env.fmt d
        match env.appts_on_date date_str with
        | .ok data => rag_step env q data [.onDate date_str] ctx1
        | .error _ => ⟨MSG_INTERNAL_ERROR, [.onDate date_str], ctx1⟩
  else if intent = "staff" ∨ intent = "staff_info" then
    match env.all_staff with
    | .ok data => rag_step env q data [.staff] ctx1
    | .error _ => ⟨MSG_INTERNAL_ERROR, [.staff], ctx1⟩
  else if intent = "patient_info" then
    if pyTruthy entity = false then ⟨MSG_PATIENT_MISSING, [], ctx1⟩
    else
      let e := entity.getD ""
      match env.patient_history e with
      | .ok data => rag_step env q data [.history e] ctx1
      | .error _ => ⟨MSG_INTERNAL_ERROR, [.history e], ctx1⟩
  else if intent = "get_patient_dob" then
    if pyTruthy entity = false then ⟨MSG_DOB_MISSING, [], ctx1⟩
    else
      let e := entity.getD ""
      match env.patient_dob e with
      | .ok data => rag_step env q data [.dob e] ctx1
      | .error _ => ⟨MSG_INTERNAL_ERROR, [.dob e], ctx1⟩
  else if EXTRA_INTENTS.contains intent then
    ⟨MSG_UNDER_DEV intent, [], ctx1⟩
  else
    ⟨MSG_UNRECOGNIZED, [], ctx1⟩

/-! ### backend/mongo.py — tenacity retry decorator -/

/-- Outcome of one awaited attempt of a mongo coroutine body: a normal
return value, a raised PyMongoError (the store-transient class the
retry decorator is configured to retry), or any other raised
exception. -/
inductive Attempt (α : Type) where
  | ok (a : α)
  | raisePymongo
  | raiseOther
deriving DecidableEq

/-- Tenacity retry loop: fuel counts the retries still allowed and k is
the 1-based number of the attempt about to run. A normal return or a
non-PyMongoError exception ends the loop at once; a PyMongoError is
retried after the fixed 1-second wait while fuel remains, and re-raised
once attempts are exhausted. Returns the final outcome together with
the number of attempts actually executed. -/
def tenacityRun {α : Type} (f : Nat → Attempt α) : Nat → Nat → Attempt α × Nat
  | fuel, k =>
    match f k, fuel with
    | .ok a, _ => (.ok a, k)
    | .raiseOther, _ => (.raiseOther, k)
    | .raisePymongo, 0 => (.raisePymongo, k)
    | .raisePymongo, fuel' + 1 => tenacityRun f fuel' (k + 1)

/-- retry_mongo from backend/mongo.py: stop_after_attempt(3),
wait_fixed(1), retry_if_exception_type(PyMongoError). Three attempts
total, so two units of retry fuel, starting at attempt 1. -/
def retry_mongo_run {α : Type} (f : Nat → Attempt α) : Attempt α × Nat :=
  tenacityRun f 2 1

/-- What a mongo accessor body returns: the retrieved payload, or one
of the error dictionaries it builds itself. -/
inductive MongoReturn (α : Type) where
  | payload (a : α)
  | errorDict (msg : String)
deriving DecidableEq

/-- One attempt of the body of get_patient_history (all seven accessors
in backend/mongo.py share this shape): everything sits inside a
try/except Exception block, so the not-found case and both exception
cases all return an error dictionary normally — no exception ever
leaves the body. The store argument gives the outcome of the awaited
mongo operations on attempt k. -/
def get_patient_history_body {α : Type} (store : Nat → Attempt (Option α))
    (k : Nat) : Attempt (MongoReturn α) :=
  match store k with
  | .ok (some a) => .ok (.payload a)
  | .ok none => .ok (.errorDict "Patient not found.")
  | .raisePymongo => .ok (.errorDict "Error retrieving patient history.")
  | .raiseOther => .ok (.errorDict "Error retrieving patient history.")

/-- get_patient_history as deployed: the retry decorator applied to the
exception-swallowing body. -/
def get_patient_history_run {α : Type} (store : Nat → Attempt (Option α)) :
    Attempt (MongoReturn α) × Nat :=
  retry_mongo_run (get_patient_history_body store)

/-! ### backend/mongo.py — per-event-loop client cache -/

/-- The module-level _clients dictionary of backend/mongo.py together
with an allocator modelling construction of fresh AsyncIOMotorClient
objects: clients maps an event-loop identifier to the identifier of the
client object created for it, and every identifier below nextClient is
a client object that has already been constructed. -/
structure MongoClients where
  clients : Nat → Option Nat
  nextClient : Nat

/-- Well-formedness of the cache: every cached client was actually
constructed, and no client object is shared between two loops. Both
hold of the empty initial cache and are preserved by get_db. -/
def MongoClients.WF (st : MongoClients) : Prop :=
  (∀ l c, st.clients l = some c → c < st.nextClient) ∧
  (∀ l l' c, st.clients l = some c → st.clients l' = some c → l = l')

/-- get_db from backend/mongo.py: return the cached client for the
current event loop, constructing and caching a fresh one on first use.
The database handle returned is keyed off this client, so we return the
client identifier. -/
def get_db (loop : Nat) (st : MongoClients) : Nat × MongoClients :=
  match st.clients loop with
  | some c => (c, st)
  | none =>
    (st.nextClient,
     { clients := fun l => if l = loop then some st.nextClient else st.clients l,
       nextClient := st.nextClient + 1 })

/-! ### backend/mongo.py — name matching via MongoDB regex -/

/-- A token of a MongoDB regular-expression pattern, for the fragment
the patient-name queries can produce: the wildcard "." or a literal
character. On patterns built only from non-metacharacters this fragment
coincides with full regex semantics. -/
inductive RTok where
  | dot
  | lit (c : Char)
deriving DecidableEq

/-- Reading the query string as a regex pattern, as
\x7b"name": \x7b"$regex": name, "$options": "i"\x7d\x7d does. -/
def toPattern (s : String) : List RTok :=
  s.data.map (fun c => if c = '.' then RTok.dot else RTok.lit c)

/-- One pattern token against one character, case-insensitively (the
"i" option). -/
def tokMatches (t : RTok) (c : Char) : Bool :=
  match t with
  | .dot => true
  | .lit p => p.toLower == c.toLower

/-- The pattern matches a prefix of the character list. -/
def matchesFront : List RTok → List Char → Bool
  | [], _ => true
  | _ :: _, [] => false
  | t :: ts, c :: cs => tokMatches t c && matchesFront ts cs

/-- Unanchored regex search: the pattern matches somewhere inside the
character list. -/
def regexSearch (ts : List RTok) : List Char → Bool
  | [] => matchesFront ts []
  | c :: cs => matchesFront ts (c :: cs) || regexSearch ts cs

/-- The matching predicate the patient lookups of backend/mongo.py
apply to each stored name: case-insensitive unanchored regex match of
the query text used as the pattern. -/
def mongoNameMatch (query name : String) : Bool :=
  regexSearch (toPattern query) name.data

/-- A stored patient document (the fields relevant to name lookup). -/
structure PatientRec where
  patient_id : Nat
  name : String
deriving DecidableEq

/-- find_one on the patients collection as used by get_patient_history,
get_patient_dob and get_patient_contact: the first document in natural
store order whose name field matches the query regex. -/
def find_one_by_name (query : String) (docs : List PatientRec) : Option PatientRec :=
  docs.find? (fun p => mongoNameMatch query p.name)

/-- Containment of one character list in another as a contiguous run
(boolean form; charsInfixOf_correct below connects it to the
standard List.IsInfix relation). -/
def charsInfixOf (q : List Char) : List Char → Bool
  | [] => q.isEmpty
  | c :: cs => q.isPrefixOf (c :: cs) || charsInfixOf q cs

/-- Modelled from the spec: case-insensitive substring matching — the
stored name matches exactly when it contains the queried text as a
substring, comparing letters without case. Stated with character-wise
lowercasing; used only to compare against the code-derived
mongoNameMatch. -/
def ciSubstringMatch (query name : String) : Bool :=
  charsInfixOf (query.data.map Char.toLower) (name.data.map Char.toLower)

/-- The characters that are metacharacters in MongoDB (PCRE) regular
expressions; a query avoiding all of them is interpreted purely
literally. -/
def REGEX_SPECIAL : List Char :=
  ['.', '^', '$', '*', '+', '?', '(', ')', '[', ']', '\x7b', '\x7d', '|', '\\']

/-! ### backend/mongo.py — capped collection queries -/

/-- find(...).to_list(length=limit): the matching documents in store
order, truncated to the first limit of them. -/
def find_toList {α : Type} (limit : Nat) (p : α → Bool) (docs : List α) : List α :=
  (docs.filter p).take limit

/-- An appointment document. -/
structure ApptRec where
  appt_id : Nat
  date : String
deriving DecidableEq

/-- A staff document. -/
structure StaffRec where
  staff_id : Nat
  status : String
deriving DecidableEq

/-- A document of one of the patient-related collections (admissions,
prescriptions, diagnoses_icd, labevents), keyed by patient_id. -/
structure PidRec where
  rec_id : Nat
  patient_id : Nat
deriving DecidableEq

/-- db.appointments.find(\x7b"date": today\x7d).to_list(length=100) from
get_todays_appointments. -/
def get_todays_appointments_q (docs : List ApptRec) (today : String) : List ApptRec :=
  find_toList 100 (fun a => a.date == today) docs

/-- db.appointments.find(\x7b"date": date_str\x7d).to_list(length=100) from
get_appointments_on_date. -/
def get_appointments_on_date_q (docs : List ApptRec) (date_str : String) : List ApptRec :=
  find_toList 100 (fun a => a.date == date_str) docs

/-- db.staff.find(\x7b"status": "active"\x7d).to_list(length=100) from
get_all_staff. -/
def get_all_staff_q (docs : List StaffRec) : List StaffRec :=
  find_toList 100 (fun s => s.status == "active") docs

/-- One related-collection query of get_patient_history:
find(\x7b"patient_id": pid\x7d).to_list(length=100). -/
def related_by_pid (docs : List PidRec) (pid : Nat) : List PidRec :=
  find_toList 100 (fun r => r.patient_id == pid) docs

/-- The four related collections assembled by get_patient_history. -/
structure HistoryData where
  admissions : List PidRec
  prescriptions : List PidRec
  diagnoses : List PidRec
  labs : List PidRec
deriving DecidableEq

/-- The related-collection part of the full-history composite built by
get_patient_history for a found patient. -/
def history_related (adm pres diag labs : List PidRec) (pid : Nat) : HistoryData :=
  ⟨related_by_pid adm pid, related_by_pid pres pid,
   related_by_pid diag pid, related_by_pid labs pid⟩

/-! ### Concrete instances used by witnesses and counterexamples -/

/-- A minimal run environment: a given oracle outcome and entity list,
trivial clock and parser, all store calls succeeding with a unit
payload and the generator answering "OK". -/
def baseEnv (oracle : OracleResult) (ents : List Entity) : Env Unit :=
  ⟨oracle, ents, 0, fun _ => none, fun _ => "", .ok (), fun _ => .ok (),
   .ok (), fun _ => .ok (), fun _ => .ok (), fun _ _ => .ok "OK"⟩

/-- Like baseEnv but with a generator that raises on every call. -/
def genFailEnv (oracle : OracleResult) (ents : List Entity) : Env Unit :=
  ⟨oracle, ents, 0, fun _ => none, fun _ => "", .ok (), fun _ => .ok (),
   .ok (), fun _ => .ok (), fun _ => .ok (), fun _ _ => .error ()⟩

/-- The _clients cache at process start: empty, no client constructed. -/
def emptyClients : MongoClients := ⟨fun _ => none, 0⟩

/-- A store behavior that raises PyMongoError on attempts 1 and 2 and
succeeds from attempt 3 on: the scenario of the retry property. -/
def c1_failTwiceStore : Nat → Attempt (Option Nat) :=
  fun k => if 3 ≤ k then .ok (some 42) else .raisePymongo

/-! ### Sanity lemmas for the schema -/

/-- The 59 candidate-label descriptions are pairwise distinct, so the
Python dict reversal in detect_intent is a genuine bijection and
label_to_intent via first match computes it exactly. -/
theorem INTENT_SCHEMA_descriptions_nodup :
    (INTENT_SCHEMA.map (fun p => p.2)).Nodup := by decide

/-- The embedded threshold literal is the rational one tenth. -/
theorem DEFAULT_THRESHOLD_eq : DEFAULT_THRESHOLD = 1/10 := by
  norm_num [DEFAULT_THRESHOLD, mkRat, Rat.normalize]

/-! ### Helper lemmas: regex fragment versus substring matching -/

/-- On a pattern of literal tokens, prefix matching is case-folded
character list prefix comparison. -/
theorem matchesFront_map_lit (qs : List Char) : ∀ cs : List Char,
    matchesFront (qs.map RTok.lit) cs =
      (qs.map Char.toLower).isPrefixOf (cs.map Char.toLower) := by
  induction qs with
  | nil => intro cs; simp [matchesFront]
  | cons q qs ih =>
    intro cs
    cases cs with
    | nil => simp [matchesFront]
    | cons c cs =>
      simp [matchesFront, tokMatches, List.isPrefixOf_cons₂, ih]

/-- On a pattern of literal tokens, unanchored regex search is
case-folded substring containment. -/
theorem regexSearch_map_lit (qs : List Char) : ∀ cs : List Char,
    regexSearch (qs.map RTok.lit) cs =
      charsInfixOf (qs.map Char.toLower) (cs.map Char.toLower) := by
  intro cs
  induction cs with
  | nil => cases qs <;> simp [regexSearch, matchesFront, charsInfixOf]
  | cons c cs ih =>
    simp [regexSearch, charsInfixOf, matchesFront_map_lit, ih]

/-- A query free of regex metacharacters is read as an all-literal
pattern. -/
theorem toPattern_no_special (q : String) (hq : ∀ c ∈ q.data, c ∉ REGEX_SPECIAL) :
    toPattern q = q.data.map RTok.lit := by
  unfold toPattern
  apply List.map_congr_left
  intro c hc
  have hdot : ¬ (c = '.') := by
    intro h
    exact hq c hc (by rw [h]; decide)
  simp [hdot]

/-- The boolean substring check agrees with the standard contiguous
containment relation on lists. -/
theorem charsInfixOf_correct (q : List Char) : ∀ s : List Char,
    charsInfixOf q s = true ↔ q <:+: s := by
  intro s
  induction s with
  | nil => simp [charsInfixOf, List.isEmpty_iff]
  | cons c cs ih =>
    simp [charsInfixOf, List.infix_cons_iff, ih, List.isPrefixOf_iff_prefix]

/-! ### Helper lemmas: the RAG step and the routing chain -/

/-- The RAG step never changes the dialogue context. -/
theorem rag_step_ctx {Data : Type} (env : Env Data) (q : String) (d : Data)
    (calls : List StoreCall) (ctx : DialogueContext) :
    (rag_step env q d calls ctx).ctx = ctx := by
  unfold rag_step
  cases env.gen q d <;> rfl

/-- The RAG step never changes the recorded store calls. -/
theorem rag_step_calls {Data : Type} (env : Env Data) (q : String) (d : Data)
    (calls : List StoreCall) (ctx : DialogueContext) :
    (rag_step env q d calls ctx).calls = calls := by
  unfold rag_step
  cases env.gen q d <;> rfl

/-- Routing an intent outside the routed set reaches the tail of the
elif chain: the EXTRA_INTENTS stub or the unrecognized-intent reply. -/
theorem process_query_unrouted {Data : Type} (env : Env Data) (q : String)
    (ctx : DialogueContext) (intent : String) (ent : Option String)
    (ctx1 : DialogueContext)
    (h : detect_intent_and_entity env.oracle env.entities ctx = ((intent, ent), ctx1))
    (h1 : ¬ (intent = "appointments_today" ∨ intent = "appointments"))
    (h2 : ¬ intent = "appointments_on_date")
    (h3 : ¬ (intent = "staff" ∨ intent = "staff_info"))
    (h4 : ¬ intent = "patient_info")
    (h5 : ¬ intent = "get_patient_dob") :
    process_query env q ctx =
      if EXTRA_INTENTS.contains intent then ⟨MSG_UNDER_DEV intent, [], ctx1⟩
      else ⟨MSG_UNRECOGNIZED, [], ctx1⟩ := by
  simp only [process_query, h]
  rw [if_neg h1, if_neg h2, if_neg h3, if_neg h4, if_neg h5]

/-! ### C1 -/

/-- C1: the retry property fails on the code — retrying is dead code.
The first two conjuncts show the retry decorator alone does implement
the claimed policy (two transient failures then success gives the
success value on attempt 3; all-transient failure stops after exactly 3
attempts). The third conjunct evaluates the deployed composition on the
claimed scenario (store raises PyMongoError on attempts 1 and 2 and
would succeed on attempt 3): the call returns the error dictionary
after a single attempt, because the except-Exception block inside the
function body swallows the PyMongoError before tenacity can see it. The
last conjunct: no store behavior whatsoever can make a second attempt
happen. -/
theorem C1_retry_never_fires :
    retry_mongo_run (fun k => if 3 ≤ k then Attempt.ok 7 else Attempt.raisePymongo) =
      (Attempt.ok 7, 3) ∧
    retry_mongo_run (fun _ => (Attempt.raisePymongo : Attempt Nat)) =
      (Attempt.raisePymongo, 3) ∧
    get_patient_history_run c1_failTwiceStore =
      (Attempt.ok (MongoReturn.errorDict "Error retrieving patient history."), 1) ∧
    (∀ store : Nat → Attempt (Option Nat), (get_patient_history_run store).2 = 1) := by
  refine ⟨by decide, by decide, by decide, ?_⟩
  intro store
  show (tenacityRun (get_patient_history_body store) 2 1).2 = 1
  cases h : store 1 with
  | ok a => cases a <;> simp [tenacityRun, get_patient_history_body, h]
  | raisePymongo => simp [tenacityRun, get_patient_history_body, h]
  | raiseOther => simp [tenacityRun, get_patient_history_body, h]

/-! ### C7 -/

/-- C7: counterexample — name matching is not substring matching. The
queried text is used as a regex pattern, so the query "a.c" matches the
stored name "abc" and get_patient_history returns that record, although
no letter case of "abc" contains "a.c" as a substring. -/
theorem C7_counterexample :
    mongoNameMatch "a.c" "abc" = true ∧
    ciSubstringMatch "a.c" "abc" = false ∧
    find_one_by_name "a.c" [⟨1, "abc"⟩] = some ⟨1, "abc"⟩ := by
  refine ⟨by decide, by decide, by decide⟩

/-- C7 (amended): name lookup matches the queried text as a
case-insensitive regex pattern against stored names; whenever the query
contains no regex metacharacter this is exactly case-insensitive
substring matching — every stored name containing the queried text as a
substring in any letter case matches and no other name does — and of
multiple matching records the first one in store order is returned. -/
theorem C7_name_matching (q : String) (hq : ∀ c ∈ q.data, c ∉ REGEX_SPECIAL) :
    (∀ name : String, mongoNameMatch q name = ciSubstringMatch q name) ∧
    (∀ docs : List PatientRec,
        find_one_by_name q docs = docs.find? (fun p => ciSubstringMatch q p.name)) ∧
    (∀ (p : PatientRec) (ps : List PatientRec), ciSubstringMatch q p.name = true →
        find_one_by_name q (p :: ps) = some p) := by
  have hmatch : ∀ name : String, mongoNameMatch q name = ciSubstringMatch q name := by
    intro name
    unfold mongoNameMatch ciSubstringMatch
    rw [toPattern_no_special q hq, regexSearch_map_lit]
  have hfun : (fun p : PatientRec => mongoNameMatch q p.name) =
      (fun p : PatientRec => ciSubstringMatch q p.name) :=
    funext fun p => hmatch p.name
  refine ⟨hmatch, ?_, ?_⟩
  · intro docs
    unfold find_one_by_name
    rw [hfun]
  · intro p ps hp
    unfold find_one_by_name
    rw [hfun]
    exact List.find?_cons_of_pos _ hp

/-- C7 witness: for the metacharacter-free query "ann", regex matching
and case-insensitive substring matching agree, and the match against
the differently cased stored name "DANNY" succeeds. -/
theorem C7_name_matching_witness :
    mongoNameMatch "ann" "DANNY" = ciSubstringMatch "ann" "DANNY" ∧
    mongoNameMatch "ann" "DANNY" = true :=
  ⟨(C7_name_matching "ann" (by decide)).1 "DANNY", by decide⟩

/-! ### C8 -/

/-- Computation rule: a loop with a cached client gets it back and the
cache is untouched. -/
theorem get_db_cached_spec (st : MongoClients) (l c : Nat) (h : st.clients l = some c) :
    (get_db l st).1 = c ∧ (get_db l st).2 = st := by
  simp [get_db, h]

/-- Computation rule: first use on a loop constructs the next fresh
client and caches it under that loop only. -/
theorem get_db_fresh_spec (st : MongoClients) (l : Nat) (h : st.clients l = none) :
    (get_db l st).1 = st.nextClient ∧
    ((get_db l st).2).nextClient = st.nextClient + 1 ∧
    ((get_db l st).2).clients l = some st.nextClient ∧
    (∀ l', l' ≠ l → ((get_db l st).2).clients l' = st.clients l') := by
  refine ⟨by simp [get_db, h], by simp [get_db, h], by simp [get_db, h], ?_⟩
  intro l' hl'
  simp [get_db, h, hl']

/-- C8: the event-loop-keyed client cache. From a well-formed cache, a
second get_db on the same loop returns the same client and the same
cache; a get_db on a different loop returns a distinct client; no
cached binding is ever removed or replaced; and well-formedness is
preserved, so the properties persist over every sequence of calls. -/
theorem C8_client_per_loop (st : MongoClients) (hwf : st.WF) (l1 l2 : Nat)
    (hne : l1 ≠ l2) :
    ((get_db l1 (get_db l1 st).2).1 = (get_db l1 st).1 ∧
      (get_db l1 (get_db l1 st).2).2 = (get_db l1 st).2) ∧
    (get_db l1 st).1 ≠ (get_db l2 (get_db l1 st).2).1 ∧
    (∀ l c, st.clients l = some c → ((get_db l1 st).2).clients l = some c) ∧
    ((get_db l1 st).2).WF := by
  obtain ⟨hbound, hinj⟩ := hwf
  rcases h1 : st.clients l1 with _ | c1
  · -- first use on loop l1: a fresh client is constructed and cached
    obtain ⟨f1, f2, f3, f4⟩ := get_db_fresh_spec st l1 h1
    obtain ⟨r1, r2⟩ := get_db_cached_spec _ l1 _ f3
    refine ⟨⟨?_, ?_⟩, ?_, ?_, ?_⟩
    · rw [r1, f1]
    · exact r2
    · have hcl2 : ((get_db l1 st).2).clients l2 = st.clients l2 :=
        f4 l2 (Ne.symm hne)
      rcases h2 : st.clients l2 with _ | c2
      · obtain ⟨g1, _, _, _⟩ := get_db_fresh_spec _ l2 (hcl2.trans h2)
        rw [f1, g1, f2]
        omega
      · obtain ⟨g1, _⟩ := get_db_cached_spec _ l2 c2 (hcl2.trans h2)
        rw [f1, g1]
        have := hbound l2 c2 h2
        omega
    · intro l c hl
      by_cases hll : l = l1
      · rw [hll] at hl; rw [hl] at h1; exact Option.noConfusion h1
      · rw [f4 l hll]; exact hl
    · constructor
      · intro l c hl
        by_cases hll : l = l1
        · rw [hll, f3] at hl
          injection hl with hc
          rw [f2]
          omega
        · rw [f4 l hll] at hl
          have := hbound l c hl
          rw [f2]
          omega
      · intro l l' c hl hl'
        by_cases hll : l = l1 <;> by_cases hll' : l' = l1
        · rw [hll, hll']
        · rw [hll, f3] at hl
          rw [f4 l' hll'] at hl'
          injection hl with hc
          have := hbound l' c hl'
          omega
        · rw [f4 l hll] at hl
          rw [hll', f3] at hl'
          injection hl' with hc
          have := hbound l c hl
          omega
        · rw [f4 l hll] at hl
          rw [f4 l' hll'] at hl'
          exact hinj l l' c hl hl'
  · -- loop l1 already has a client: the cache is returned unchanged
    obtain ⟨e1, e2⟩ := get_db_cached_spec st l1 c1 h1
    refine ⟨⟨?_, ?_⟩, ?_, ?_, ?_⟩
    · rw [e2]
    · rw [e2]
      exact e2
    · rw [e2, e1]
      rcases h2 : st.clients l2 with _ | c2
      · obtain ⟨g1, _, _, _⟩ := get_db_fresh_spec st l2 h2
        rw [g1]
        have := hbound l1 c1 h1
        omega
      · obtain ⟨g1, _⟩ := get_db_cached_spec st l2 c2 h2
        rw [g1]
        intro hc
        exact hne (hinj l1 l2 c1 h1 (by rw [hc]; exact h2))
    · intro l c hl
      rw [e2]
      exact hl
    · rw [e2]
      exact ⟨hbound, hinj⟩

/-- C8 witness: starting from the empty cache, loops 0 and 1 receive
distinct clients. -/
theorem C8_client_per_loop_witness :
    (get_db 0 emptyClients).1 ≠ (get_db 1 (get_db 0 emptyClients).2).1 :=
  (C8_client_per_loop emptyClients
    ⟨fun _ _ h => Option.noConfusion h, fun _ _ _ h _ => Option.noConfusion h⟩
    0 1 (by decide)).2.1

/-! ### C9 -/

/-- C9: every collection lookup — today's appointments, appointments on
a date, active staff — and each related collection of the full-history
composite returns at most 100 records, and a store holding 150 matching
records for the date lookup yields exactly 100. -/
theorem C9_collection_caps :
    (∀ (docs : List ApptRec) (today : String),
        (get_todays_appointments_q docs today).length ≤ 100) ∧
    (∀ (docs : List ApptRec) (d : String),
        (get_appointments_on_date_q docs d).length ≤ 100) ∧
    (∀ docs : List StaffRec, (get_all_staff_q docs).length ≤ 100) ∧
    (∀ (adm pres diag labs : List PidRec) (pid : Nat),
        (history_related adm pres diag labs pid).admissions.length ≤ 100 ∧
        (history_related adm pres diag labs pid).prescriptions.length ≤ 100 ∧
        (history_related adm pres diag labs pid).diagnoses.length ≤ 100 ∧
        (history_related adm pres diag labs pid).labs.length ≤ 100) ∧
    (∀ (docs : List ApptRec) (d : String),
        (docs.filter (fun a => a.date == d)).length = 150 →
        (get_appointments_on_date_q docs d).length = 100) := by
  have hlen : ∀ (α : Type) (p : α → Bool) (docs : List α),
      (find_toList 100 p docs).length ≤ 100 := by
    intro α p docs
    simp only [find_toList, List.length_take]
    exact Nat.min_le_left _ _
  refine ⟨fun docs t => hlen _ _ _, fun docs d => hlen _ _ _, fun docs => hlen _ _ _,
    fun adm pres diag labs pid => ⟨hlen _ _ _, hlen _ _ _, hlen _ _ _, hlen _ _ _⟩, ?_⟩
  intro docs d h
  simp only [get_appointments_on_date_q, find_toList, List.length_take, h]
  decide

/-- C9 witness: a store of 150 appointments on 2025-06-21 yields
exactly 100 from the date lookup. -/
theorem C9_collection_caps_witness :
    (get_appointments_on_date_q (List.replicate 150 ⟨0, "2025-06-21"⟩) "2025-06-21").length
      = 100 :=
  C9_collection_caps.2.2.2.2 (List.replicate 150 ⟨0, "2025-06-21"⟩) "2025-06-21"
    (by
      have hfil : List.filter (fun a => a.date == "2025-06-21")
          (List.replicate 150 (⟨0, "2025-06-21"⟩ : ApptRec)) =
          List.replicate 150 ⟨0, "2025-06-21"⟩ :=
        List.filter_eq_self.mpr
          (fun a ha => by rw [List.eq_of_mem_replicate ha]; decide)
      rw [hfil, List.length_replicate])

/-! ### C2 -/

/-- C2: counterexample — a run that ends in a validation error still
overwrites the conversation memory. With classification patient_info
(score 0.9) and no extracted entity, process_query returns the
patient-name validation message and issues no store call, yet the
dialogue context has been overwritten from empty to (patient_info,
None) by detect_intent_and_entity before dispatch. -/
theorem C2_counterexample :
    process_query (baseEnv (.ok "Fetch patient record details." (mkRat 9 10)) [])
        "patient info" ⟨none, none⟩ =
      ⟨MSG_PATIENT_MISSING, [], ⟨some "patient_info", none⟩⟩ ∧
    (⟨some "patient_info", none⟩ : DialogueContext) ≠ (⟨none, none⟩ : DialogueContext) := by
  refine ⟨by decide, by decide⟩

/-- C2 (amended): the conversation memory is overwritten on every
non-fallback classification, before dispatch, and the dispatch outcome
never touches it again: after any run the memory is exactly what the
classification step left behind; a non-fallback classification always
overwrites it with the classified intent and extracted entity — also
when the run then ends in a validation error or a store error — and
only a fallback classification leaves it unchanged. -/
theorem C2_memory_update (Data : Type) (env : Env Data) (q : String)
    (ctx : DialogueContext) (intent : String) (ent : Option String)
    (ctx1 : DialogueContext)
    (h : detect_intent_and_entity env.oracle env.entities ctx = ((intent, ent), ctx1)) :
    (process_query env q ctx).ctx = ctx1 ∧
    ((detect_intent env.oracle DEFAULT_THRESHOLD).1 ≠ "fallback" → ctx1 = ⟨some intent, ent⟩) ∧
    ((detect_intent env.oracle DEFAULT_THRESHOLD).1 = "fallback" →
      ctx1 = ctx ∧ intent = "unknown" ∧ ent = none) := by
  refine ⟨?_, ?_, ?_⟩
  · simp only [process_query, h]
    repeat' split
    all_goals first
      | rfl
      | exact rag_step_ctx env q _ _ ctx1
  · intro hnf
    simp only [detect_intent_and_entity] at h
    rw [if_neg hnf] at h
    injection h with hA hB
    injection hA with hA1 hA2
    subst hA1
    subst hA2
    exact hB.symm
  · intro hf
    simp only [detect_intent_and_entity] at h
    rw [if_pos hf] at h
    injection h with hA hB
    injection hA with hA1 hA2
    subst hA1
    subst hA2
    exact ⟨hB.symm, rfl, rfl⟩

/-- C2 witness: a successful staff run overwrites the memory with the
classified intent and entity. -/
theorem C2_memory_update_witness :
    (process_query (baseEnv (.ok "List hospital staff information." (mkRat 8 10))
        [⟨"Rahul Sharma", "PERSON"⟩]) "staff" ⟨none, none⟩).ctx =
      ⟨some "staff_info", some "Rahul Sharma"⟩ :=
  (C2_memory_update Unit
    (baseEnv (.ok "List hospital staff information." (mkRat 8 10)) [⟨"Rahul Sharma", "PERSON"⟩])
    "staff" ⟨none, none⟩ "staff_info" (some "Rahul Sharma")
    ⟨some "staff_info", some "Rahul Sharma"⟩ (by decide)).1

/-! ### C4 -/

/-- C4: the fallback threshold. The effective threshold is never below
0.10 whatever threshold a caller supplies; any classification whose top
score is below 0.10 yields fallback no matter which label ranked first;
and the whole pipeline then returns the fixed unrecognized-intent
message without issuing any store call (and without touching the
conversation memory). -/
theorem C4_fallback_threshold :
    (∀ threshold : ℚ, (1 : ℚ)/10 ≤ dynamic_threshold threshold) ∧
    (∀ (lbl : String) (s threshold : ℚ), s < 1/10 →
        (detect_intent (.ok lbl s) threshold).1 = "fallback") ∧
    (∀ (Data : Type) (env : Env Data) (q : String) (ctx : DialogueContext)
        (lbl : String) (s : ℚ), env.oracle = .ok lbl s → s < 1/10 →
        process_query env q ctx = ⟨MSG_UNRECOGNIZED, [], ctx⟩) := by
  have hfb : ∀ (lbl : String) (s threshold : ℚ), s < 1/10 →
      (detect_intent (.ok lbl s) threshold).1 = "fallback" := by
    intro lbl s t hs
    have hlt : s < dynamic_threshold t := by
      unfold dynamic_threshold
      rw [DEFAULT_THRESHOLD_eq]
      exact lt_of_lt_of_le hs (le_max_right t (1/10))
    simp only [detect_intent]
    cases hl : label_to_intent lbl with
    | none => simp [hl]
    | some i => simp [hl, hlt]
  refine ⟨?_, hfb, ?_⟩
  · intro t
    unfold dynamic_threshold
    rw [DEFAULT_THRESHOLD_eq]
    exact le_max_right t (1/10)
  · intro Data env q ctx lbl s ho hs
    have hd : detect_intent_and_entity env.oracle env.entities ctx =
        (("unknown", none), ctx) := by
      unfold detect_intent_and_entity
      rw [if_pos (by rw [ho]; exact hfb lbl s DEFAULT_THRESHOLD hs)]
    rw [process_query_unrouted env q ctx "unknown" none ctx hd
      (by decide) (by decide) (by decide) (by decide) (by decide)]
    rw [if_neg (by decide)]

/-- C4 witness: a top score of 0.05 for the top-ranked
appointments_today label falls back and process returns the
unrecognized-intent message with no store call. -/
theorem C4_fallback_threshold_witness :
    process_query (baseEnv (.ok "Get today\x27s appointments." (mkRat 1 20)) [])
        "hm" ⟨none, none⟩ =
      ⟨MSG_UNRECOGNIZED, [], ⟨none, none⟩⟩ :=
  C4_fallback_threshold.2.2 Unit (baseEnv (.ok "Get today\x27s appointments." (mkRat 1 20)) [])
    "hm" ⟨none, none⟩ "Get today\x27s appointments." (mkRat 1 20) rfl
    (by norm_num [mkRat, Rat.normalize])

/-! ### C5 -/

/-- C5: an argument-requiring intent with no usable extracted entity
returns exactly the validation message naming that argument kind —
patient name for patient_info and get_patient_dob, date for
appointments_on_date — and no store call is ever issued. -/
theorem C5_missing_argument (Data : Type) (env : Env Data) (q : String)
    (ctx : DialogueContext) (intent : String) (ent : Option String)
    (ctx1 : DialogueContext)
    (h : detect_intent_and_entity env.oracle env.entities ctx = ((intent, ent), ctx1))
    (hent : pyTruthy ent = false) :
    (intent = "patient_info" →
        process_query env q ctx = ⟨MSG_PATIENT_MISSING, [], ctx1⟩) ∧
    (intent = "get_patient_dob" →
        process_query env q ctx = ⟨MSG_DOB_MISSING, [], ctx1⟩) ∧
    (intent = "appointments_on_date" →
        process_query env q ctx = ⟨MSG_DATE_MISSING, [], ctx1⟩) := by
  refine ⟨?_, ?_, ?_⟩ <;> intro hi <;> subst hi <;> simp only [process_query, h] <;>
    simp [hent]

/-- C5 witness: get_patient_dob classified with no entity returns the
date-of-birth validation message, no store call issued. -/
theorem C5_missing_argument_witness :
    process_query (baseEnv (.ok "Fetch patient\x27s date of birth." (mkRat 7 10)) [])
        "dob" ⟨none, none⟩ =
      ⟨MSG_DOB_MISSING, [], ⟨some "get_patient_dob", none⟩⟩ :=
  (C5_missing_argument Unit (baseEnv (.ok "Fetch patient\x27s date of birth." (mkRat 7 10)) [])
    "dob" ⟨none, none⟩ "get_patient_dob" none ⟨some "get_patient_dob", none⟩
    (by decide) rfl).2.1 rfl

/-! ### C6 -/

/-- C6: date normalization in the appointments_on_date branch. The
literal token "today" resolves — case-insensitively and before any
general parsing — to the current date and "tomorrow" to the current
date plus one day, each leading to exactly one store call for that
date; every other entity string is handed to the natural-language date
parser, whose failure yields the date-validation message with no store
call at all, and whose success leads to one store call for the parsed
date. -/
theorem C6_date_normalization (Data : Type) (env : Env Data) (q : String)
    (ctx : DialogueContext) (e : String) (ctx1 : DialogueContext)
    (h : detect_intent_and_entity env.oracle env.entities ctx =
      (("appointments_on_date", some e), ctx1))
    (he : e ≠ "") :
    (pyLower e = "today" →
        (process_query env q ctx).calls = [StoreCall.onDate (env.fmt env.today)]) ∧
    (pyLower e = "tomorrow" →
        (process_query env q ctx).calls = [StoreCall.onDate (env.fmt (env.today + 1))]) ∧
    (pyLower e ≠ "today" → pyLower e ≠ "tomorrow" →
      (env.parse_date e = none →
          process_query env q ctx = ⟨MSG_DATE_UNPARSABLE, [], ctx1⟩) ∧
      (∀ d : Int, env.parse_date e = some d →
          (process_query env q ctx).calls = [StoreCall.onDate (env.fmt d)])) := by
  have hty : pyTruthy (some e) = true := by
    simp [pyTruthy, he]
  refine ⟨?_, ?_, ?_⟩
  · intro ht
    simp only [process_query, h]
    simp only [hty]
    simp [ht]
    cases hst : env.appts_on_date (env.fmt env.today) with
    | ok data => simp [hst, rag_step_calls]
    | error er => simp [hst]
  · intro ht
    simp only [process_query, h]
    simp only [hty]
    simp [ht]
    cases hst : env.appts_on_date (env.fmt (env.today + 1)) with
    | ok data => simp [hst, rag_step_calls]
    | error er => simp [hst]
  · intro h1 h2
    constructor
    · intro hpd
      simp only [process_query, h]
      simp only [hty]
      simp [h1, h2, hpd]
    · intro d hpd
      simp only [process_query, h]
      simp only [hty]
      simp [h1, h2, hpd]
      cases hst : env.appts_on_date (env.fmt d) with
      | ok data => simp [hst, rag_step_calls]
      | error er => simp [hst]

/-- C6 witness: the unparsable date entity "xyzzy" yields the
date-validation message and no store call. -/
theorem C6_date_normalization_witness :
    process_query (baseEnv (.ok "Get appointments for a specific date." (mkRat 6 10))
        [⟨"xyzzy", "DATE"⟩]) "appointments on xyzzy" ⟨none, none⟩ =
      ⟨MSG_DATE_UNPARSABLE, [], ⟨some "appointments_on_date", some "xyzzy"⟩⟩ :=
  ((C6_date_normalization Unit
      (baseEnv (.ok "Get appointments for a specific date." (mkRat 6 10)) [⟨"xyzzy", "DATE"⟩])
      "appointments on xyzzy" ⟨none, none⟩ "xyzzy"
      ⟨some "appointments_on_date", some "xyzzy"⟩ (by decide) (by decide)).2.2
    (by decide) (by decide)).1 rfl

/-! ### C10 -/

/-- C10: counterexample to the advertised intent count — INTENT_SCHEMA
holds 59 intents, not 58. -/
theorem C10_counterexample :
    INTENT_SCHEMA.length = 59 ∧ ¬ (INTENT_SCHEMA.length = 58) := by decide

/-- C10 (amended): every classified intent outside the routed set
\x7bappointments_today, appointments, appointments_on_date, staff,
staff_info, patient_info, get_patient_dob\x7d issues no store call —
those in EXTRA_INTENTS get the fixed under-development message, all
others the fixed unrecognized-intent message; greeting, lab_results and
prescriptions are among the 59 intents advertised in INTENT_SCHEMA that
fall in the latter group. -/
theorem C10_unrouted_intents (Data : Type) (env : Env Data) (q : String)
    (ctx : DialogueContext) (intent : String) (ent : Option String)
    (ctx1 : DialogueContext)
    (h : detect_intent_and_entity env.oracle env.entities ctx = ((intent, ent), ctx1))
    (hr : intent ∉ ROUTED_INTENTS) :
    (process_query env q ctx).calls = [] ∧
    (intent ∈ EXTRA_INTENTS →
        process_query env q ctx = ⟨MSG_UNDER_DEV intent, [], ctx1⟩) ∧
    (intent ∉ EXTRA_INTENTS →
        process_query env q ctx = ⟨MSG_UNRECOGNIZED, [], ctx1⟩) ∧
    ("greeting" ∈ INTENT_SCHEMA.map (fun p => p.1) ∧ "greeting" ∉ ROUTED_INTENTS ∧
      "greeting" ∉ EXTRA_INTENTS) ∧
    ("lab_results" ∈ INTENT_SCHEMA.map (fun p => p.1) ∧ "lab_results" ∉ ROUTED_INTENTS ∧
      "lab_results" ∉ EXTRA_INTENTS) ∧
    ("prescriptions" ∈ INTENT_SCHEMA.map (fun p => p.1) ∧
      "prescriptions" ∉ ROUTED_INTENTS ∧ "prescriptions" ∉ EXTRA_INTENTS) := by
  simp only [ROUTED_INTENTS, List.mem_cons, List.not_mem_nil, or_false, not_or] at hr
  obtain ⟨n1, n2, n3, n4, n5, n6, n7⟩ := hr
  have hun := process_query_unrouted env q ctx intent ent ctx1 h
    (not_or.mpr ⟨n1, n2⟩) n3 (not_or.mpr ⟨n4, n5⟩) n6 n7
  refine ⟨?_, ?_, ?_, by decide, by decide, by decide⟩
  · rw [hun]
    cases hc : EXTRA_INTENTS.contains intent <;> simp [hc]
  · intro hm
    rw [hun, if_pos (List.elem_eq_true_of_mem hm)]
  · intro hm
    have hc : ¬ (EXTRA_INTENTS.contains intent = true) :=
      fun hc => hm (List.mem_of_elem_eq_true hc)
    rw [hun, if_neg hc]

/-- C10 witness: the advertised intent lab_results is classified but
unrouted — the run returns the fixed unrecognized-intent message and
issues no store call. -/
theorem C10_unrouted_intents_witness :
    process_query (baseEnv (.ok "Retrieve patient lab results." (mkRat 9 10)) [])
        "labs" ⟨none, none⟩ =
      ⟨MSG_UNRECOGNIZED, [], ⟨some "lab_results", none⟩⟩ :=
  (C10_unrouted_intents Unit (baseEnv (.ok "Retrieve patient lab results." (mkRat 9 10)) [])
    "labs" ⟨none, none⟩ "lab_results" none ⟨some "lab_results", none⟩
    (by decide) (by decide)).2.2.1 (by decide)

/-! ### C3 -/

/-- C3: process_query is total and never propagates an exception — its
result is always one of the fixed user-displayable strings (the generic
internal-error message, the unrecognized-intent message, one of the
validation messages, an under-development stub for an EXTRA_INTENTS
intent) or an answer the generator returned; and whenever the run
reached a store capability while the generator raises on every input
(so the only non-raising stages are the fixed replies), the user still
receives exactly the single generic internal-error message. -/
theorem C3_always_displayable (Data : Type) (env : Env Data) (q : String)
    (ctx : DialogueContext) :
    ((process_query env q ctx).msg = MSG_INTERNAL_ERROR ∨
     (process_query env q ctx).msg = MSG_UNRECOGNIZED ∨
     (process_query env q ctx).msg = MSG_DATE_MISSING ∨
     (process_query env q ctx).msg = MSG_DATE_UNPARSABLE ∨
     (process_query env q ctx).msg = MSG_PATIENT_MISSING ∨
     (process_query env q ctx).msg = MSG_DOB_MISSING ∨
     (∃ i, i ∈ EXTRA_INTENTS ∧ (process_query env q ctx).msg = MSG_UNDER_DEV i) ∨
     (∃ d, env.gen q d = Except.ok ((process_query env q ctx).msg))) ∧
    ((∀ d, env.gen q d = Except.error ()) →
      ((process_query env q ctx).msg = MSG_INTERNAL_ERROR ∨
       (process_query env q ctx).calls = [])) := by
  constructor
  · simp only [process_query]
    repeat' split
    all_goals first
      | exact Or.inl rfl
      | exact Or.inr (Or.inl rfl)
      | exact Or.inr (Or.inr (Or.inl rfl))
      | exact Or.inr (Or.inr (Or.inr (Or.inl rfl)))
      | exact Or.inr (Or.inr (Or.inr (Or.inr (Or.inl rfl))))
      | exact Or.inr (Or.inr (Or.inr (Or.inr (Or.inr (Or.inl rfl)))))
      | (rename_i hmem
         exact Or.inr (Or.inr (Or.inr (Or.inr (Or.inr (Or.inr (Or.inl
           ⟨_, List.mem_of_elem_eq_true hmem, rfl⟩)))))))
      | (rename_i data heq
         cases hg : env.gen q data with
         | ok resp =>
           exact Or.inr (Or.inr (Or.inr (Or.inr (Or.inr (Or.inr (Or.inr
             ⟨data, by simp [rag_step, hg]⟩))))))
         | error er => exact Or.inl (by simp [rag_step, hg]))
  · intro hgen
    simp only [process_query]
    repeat' split
    all_goals first
      | exact Or.inl rfl
      | exact Or.inr rfl
      | (rename_i data heq
         exact Or.inl (by simp [rag_step, hgen data]))

/-- C3 witness: in an environment whose generator raises on every call,
a dispatched staff run still yields the generic internal-error
message. -/
theorem C3_always_displayable_witness :
    ((process_query (genFailEnv (.ok "List hospital staff information." (mkRat 9 10)) [])
        "staff" ⟨none, none⟩).msg = MSG_INTERNAL_ERROR ∨
     (process_query (genFailEnv (.ok "List hospital staff information." (mkRat 9 10)) [])
        "staff" ⟨none, none⟩).calls = []) ∧
    (process_query (genFailEnv (.ok "List hospital staff information." (mkRat 9 10)) [])
        "staff" ⟨none, none⟩).msg = MSG_INTERNAL_ERROR :=
  ⟨(C3_always_displayable Unit
      (genFailEnv (.ok "List hospital staff information." (mkRat 9 10)) [])
      "staff" ⟨none, none⟩).2 (fun _ => rfl),
   by decide⟩

end AlV1
